import Mathlib

/-!
Shallow embedding of the certificate-platform core (cert_platform/api/views.py and
models.py): the assessment grader (submit_assessment), the certificate ledger
(_make_certificate_id, _ensure_certificate, issue_certificate) and the public
verification service (verify_certificate).

Modelling conventions:
* Python strings are Lean `String`; `.lower()/.upper()/.strip()` are embedded as
  maps / trims over the character list (`pyLower`, `pyUpper`, `pyStrip`); Django's
  `__iexact` lookup is `iexact` (compare after lowering).
* The database is an explicit `Store` (lists of rows in insertion order, plus the
  next primary key); QuerySet `.filter(...).first()` is `List.find?`,
  `.exists()` is `List.any`, `.create(...)` appends a row.
* `uuid.uuid4().hex` (random) is a parameter `gen : Nat → String` supplying the
  raw hex string of the k-th `uuid.uuid4()` call made by the operation.
* Float arithmetic on scores is embedded as exact rational arithmetic (`ℚ`);
  timestamps/dates are day numbers (`Int`), `timedelta(days=90)` is `- 90`.
* Rows carry exactly the fields the modelled operations read or write.
* Raised exceptions / JSON error responses are `Except.error`; stateful views
  return the store alongside, the store unchanged on the error paths (the raise
  happens before any mutation, and views run inside `transaction.atomic()`).
-/

deriving instance DecidableEq for Except

namespace CertPlatform

/-- Python `str.lower()` (ASCII data, as produced by this code base). -/
def pyLower (s : String) : String := ⟨s.data.map Char.toLower⟩

/-- Python `str.upper()` (ASCII data, as produced by this code base). -/
def pyUpper (s : String) : String := ⟨s.data.map Char.toUpper⟩

/-- Python `str.isspace` on the characters `str.strip()` removes by default. -/
def isPySpace (c : Char) : Bool :=
  c.toNat = 32 || c.toNat = 9 || c.toNat = 10 || c.toNat = 13 || c.toNat = 11 || c.toNat = 12

/-- Python `str.strip()`: drop leading and trailing whitespace. -/
def pyStrip (s : String) : String :=
  ⟨((s.data.dropWhile isPySpace).reverse.dropWhile isPySpace).reverse⟩

/-- Django `certificate_id__iexact`: case-insensitive string equality. -/
def iexact (a b : String) : Bool := pyLower a == pyLower b

/-! ## Data model (models.py) -/

/-- One row of `AssessmentQuestion` (or one fallback-question dict): the grader
reads only `answer`; `prompt`/`options` are carried for fidelity. -/
structure Question where
  prompt : String
  options : List String
  answer : String
deriving DecidableEq

/-- One row of `Certificate` (models.py, class Certificate): `course` is the
linked course title, `payment` the owning payment's pk, `created_at` the
creation date as a day number. -/
structure Certificate where
  pk : Nat
  certificate_id : String
  email : String
  plan_type : String
  course : Option String
  orientation : String
  status : String
  payment : Option Nat
  created_at : Int
deriving DecidableEq

/-- One row of `Payment` (models.py, class Payment), restricted to the fields
the modelled operations touch. -/
structure Payment where
  pk : Nat
  transaction_id : String
  plan_type : String
  name : String
  email : String
  college_name : String
  certificate_orientation : String
  course : Option String
  status : String
deriving DecidableEq

/-- One row of `AssessmentAttempt` (models.py): immutable once created. -/
structure SubmittedResponse where
  id : Option Int
  answer : Option String
deriving DecidableEq

structure AssessmentAttempt where
  assessment : Nat
  email : String
  score_percent : ℚ
  passed : Bool
  responses : List SubmittedResponse
  correct_count : Nat
  total_questions : Nat
deriving DecidableEq

/-- One row of `Assessment` with its prefetched `questions` as the
`{question.id: question}` association (ids are the distinct DB primary keys)
and `pass_threshold` as a rational percentage. -/
structure Assessment where
  pk : Nat
  questions : List (Int × Question)
  pass_threshold : ℚ
deriving DecidableEq

/-- The relevant database state: rows in insertion order plus the next pk. -/
structure Store where
  certificates : List Certificate
  payments : List Payment
  next_pk : Nat
deriving DecidableEq

/-! ## Assessment grader (views.py lines 54-102 and 540-603) -/

/-- views.py: `PASS_THRESHOLD = 0.4`. -/
def PASS_THRESHOLD : ℚ := 0.4

/-- views.py: `FALLBACK_QUESTIONS`, keyed by their `id` entries as
`submit_assessment` builds its `question_map` dict from them. -/
def FALLBACK_QUESTIONS : List (Int × Question) :=
  [ (1, { prompt := "Which library is primarily used for data manipulation in Python?",
          options := ["React", "Pandas", "Vue", "Laravel"],
          answer := "Pandas" }),
    (2, { prompt := "What does CSV stand for?",
          options := ["Computer Style View", "Comma Separated Values", "Code Syntax Variable", "None"],
          answer := "Comma Separated Values" }),
    (3, { prompt := "Which metric is commonly used to evaluate a classification model?",
          options := ["Mean Squared Error", "R-Squared", "Accuracy", "Variance"],
          answer := "Accuracy" }),
    (4, { prompt := "What is the purpose of the 'head()' function in Pandas?",
          options := ["Delete the first row", "Return the last 5 rows", "Return the first n rows", "Calculate the mean"],
          answer := "Return the first n rows" }),
    (5, { prompt := "Which of the following is a supervised learning algorithm?",
          options := ["K-Means Clustering", "Linear Regression", "Apriori", "DBSCAN"],
          answer := "Linear Regression" }) ]

/-- Python `question_map.get(item.get("id"))`: a missing `"id"` key is `None`,
which matches no question; otherwise dict lookup on the id. -/
def lookupQuestion (question_map : List (Int × Question)) (i : Option Int) : Option Question :=
  i.bind fun k => (question_map.find? fun entry => entry.fst == k).map Prod.snd

/-- The grading loop of `submit_assessment` (views.py lines 567-577): walk the
submitted responses, skip ids that match no question, and count a response when
its `answer` equals the question's stored `answer` (Python `==`, case-sensitive;
a missing answer is `None` and never equal to the stored string). -/
def gradeResponses (question_map : List (Int × Question)) (responses : List SubmittedResponse) : Nat :=
  responses.foldl
    (fun correct_count item =>
      match lookupQuestion question_map item.id with
      | none => correct_count
      | some question =>
        if item.answer == some question.answer then correct_count + 1 else correct_count)
    0

structure GradeResult where
  correct : Nat
  total : Nat
  percentage : ℚ
  passed : Bool
deriving DecidableEq

/-- The grading core of `submit_assessment` (views.py lines 563-580): the 503
guard on an empty bank, then `percentage = (correct_count / total_questions) * 100`
and `passed = percentage >= threshold`. -/
def grade (question_map : List (Int × Question)) (threshold : ℚ)
    (responses : List SubmittedResponse) : Except String GradeResult :=
  let total_questions := question_map.length
  if total_questions = 0 then
    Except.error "Assessment is not ready. Please try later."
  else
    let correct_count := gradeResponses question_map responses
    let percentage := ((correct_count : ℚ) / (total_questions : ℚ)) * 100
    Except.ok
      { correct := correct_count, total := total_questions, percentage := percentage,
        passed := decide (threshold ≤ percentage) }

/-- `submit_assessment` (views.py lines 540-603) after body parsing:
`assessment_found` is the result of `_get_assessment`; the stored bank and
threshold are used only when the assessment exists *and* has questions
(`if assessment and assessment.questions.exists()`), else the fallback bank with
`PASS_THRESHOLD * 100`; an `AssessmentAttempt` row is appended whenever
`assessment` is truthy, whichever bank graded the submission. -/
def submit_assessment (assessment_found : Option Assessment)
    (responses : List SubmittedResponse) (email : String)
    (attempts : List AssessmentAttempt) :
    Except String (GradeResult × List AssessmentAttempt) :=
  if responses.isEmpty then Except.error "Responses list is required."
  else
    let question_map :=
      match assessment_found with
      | some a => if a.questions.isEmpty then FALLBACK_QUESTIONS else a.questions
      | none => FALLBACK_QUESTIONS
    let threshold :=
      match assessment_found with
      | some a => if a.questions.isEmpty then PASS_THRESHOLD * 100 else a.pass_threshold
      | none => PASS_THRESHOLD * 100
    match grade question_map threshold responses with
    | Except.error e => Except.error e
    | Except.ok result =>
      let new_attempts :=
        match assessment_found with
        | some a =>
          attempts ++
            [{ assessment := a.pk, email := email, score_percent := result.percentage,
               passed := result.passed, responses := responses,
               correct_count := result.correct, total_questions := result.total }]
        | none => attempts
      Except.ok (result, new_attempts)

/-! ## Certificate ledger (views.py lines 327-328 and 399-423) -/

/-- `_make_certificate_id` (views.py line 327): `f"CERT-\x7buuid.uuid4().hex[:10].upper()\x7d"`,
taking the raw 32-char hex string of the uuid as input. -/
def make_certificate_id (raw_hex : String) : String :=
  "CERT-" ++ pyUpper ⟨raw_hex.data.take 10⟩

/-- `desired_id.strip().upper() if desired_id else None` (views.py line 401).
The empty string stands for Python `None`/falsy: `None` and `""` are
indistinguishable at every use site (`if normalized_id`, `normalized_id or ...`). -/
def normalize_desired : Option String → String
  | none => ""
  | some d => pyUpper (pyStrip d)

/-- `Certificate.objects.filter(certificate_id__iexact=cid).exists()` (line 412). -/
def certificate_id_in_use (s : Store) (cid : String) : Bool :=
  s.certificates.any fun c => iexact c.certificate_id cid

/-- `Certificate.objects.exclude(pk=cert.pk).filter(certificate_id__iexact=cid).exists()`
(views.py line 405). -/
def certificate_id_in_use_by_other (s : Store) (exclude_pk : Nat) (cid : String) : Bool :=
  s.certificates.any fun c => (c.pk != exclude_pk) && iexact c.certificate_id cid

/-- `payment.certificates.filter(plan_type=payment.plan_type).first()` (line 400). -/
def find_payment_certificate (s : Store) (p : Payment) : Option Certificate :=
  s.certificates.find? fun c => c.payment == some p.pk && c.plan_type == p.plan_type

/-- Lines 411-413 of views.py: `certificate_id = normalized_id or _make_certificate_id()`,
regenerated once when the first candidate is already in use (case-insensitively).
`gen k` is the hex of the k-th `uuid.uuid4()` call: with a non-empty normalized
desired id the first generator call (if any) is `gen 0`; without one the first
candidate itself is `make_certificate_id (gen 0)` and the retry is `gen 1`. -/
def new_certificate_id (gen : Nat → String) (s : Store) (normalized_id : String) : String :=
  let first_candidate := if normalized_id != "" then normalized_id else make_certificate_id (gen 0)
  let next_index : Nat := if normalized_id != "" then 0 else 1
  if certificate_id_in_use s first_candidate then make_certificate_id (gen next_index)
  else first_candidate

/-- Lines 415-423 of views.py: the `Certificate.objects.create(...)` row, with
status `issued` and the payment's email/plan/course/orientation. -/
def create_certificate (gen : Nat → String) (now : Int) (s : Store) (payment : Payment)
    (normalized_id : String) : Certificate :=
  { pk := s.next_pk, certificate_id := new_certificate_id gen s normalized_id,
    email := payment.email, plan_type := payment.plan_type, course := payment.course,
    orientation := payment.certificate_orientation, status := "issued",
    payment := some payment.pk, created_at := now }

/-- `_ensure_certificate(payment, desired_id=None)` (views.py lines 399-423).
`gen k` is the hex of the k-th `uuid.uuid4()` call the operation makes; `now`
is the creation date a new row receives. The store is returned unchanged on
the `ValueError("Certificate ID already in use.")` path. -/
def ensure_certificate (gen : Nat → String) (now : Int) (s : Store) (payment : Payment)
    (desired_id : Option String) : Except String Certificate × Store :=
  let found := find_payment_certificate s payment
  let normalized_id := normalize_desired desired_id
  match found with
  | some cert =>
    if normalized_id != "" && cert.certificate_id != normalized_id then
      if certificate_id_in_use_by_other s cert.pk normalized_id then
        (Except.error "Certificate ID already in use.", s)
      else
        let renamed := { cert with certificate_id := normalized_id }
        (Except.ok renamed,
          { s with certificates := s.certificates.map fun c => if c.pk = cert.pk then renamed else c })
    else
      (Except.ok cert, s)
  | none =>
    let created := create_certificate gen now s payment normalized_id
    (Except.ok created,
      { s with certificates := s.certificates ++ [created], next_pk := s.next_pk + 1 })

/-- `issue_certificate` (views.py lines 1040-1063), the store-affecting core:
look up the payment by `transactionId`, unconditionally force its status to
`"paid"` (no precondition on the prior status), then `_ensure_certificate`
with no desired id. -/
def issue_certificate (gen : Nat → String) (now : Int) (s : Store) (transaction_id : String) :
    Except String (Certificate × Payment) × Store :=
  if transaction_id == "" then (Except.error "transactionId is required.", s)
  else
    match s.payments.find? (fun p => p.transaction_id == transaction_id) with
    | none => (Except.error "Payment not found.", s)
    | some payment =>
      let updated := if payment.status != "paid" then { payment with status := "paid" } else payment
      let s1 := { s with payments := s.payments.map fun q => if q.pk = payment.pk then updated else q }
      match ensure_certificate gen now s1 updated none with
      | (Except.error e, s2) => (Except.error e, s2)
      | (Except.ok cert, s2) => (Except.ok (cert, updated), s2)

/-! ## Verification service (views.py lines 1166-1221) -/

structure VerificationHolder where
  name : Option String
  email : String
  planType : String
  course : Option String
  awardedOn : Int
  college : Option String
  transactionId : Option String
  timePeriod : Option String
  startDate : Int
  endDate : Int
deriving DecidableEq

inductive VerifyResult where
  | invalid (message : String)
  | notFound (certificateId : String) (verified : Bool) (message : String)
  | found (certificateId : String) (verified : Bool) (holder : VerificationHolder) (orientation : String)
deriving DecidableEq

/-- Resolve `certificate.payment` (a nullable foreign key) in the store. -/
def lookup_payment (s : Store) (pk : Option Nat) : Option Payment :=
  pk.bind fun k => s.payments.find? fun p => p.pk == k

/-- `verify_certificate` (views.py lines 1166-1221): strip the submitted id,
reject the empty one, look the certificate up case-insensitively; when absent
answer `verified=False, "Certificate not found."` with no holder block; when
present build the holder block exactly as the view does (name/email/college/
transaction id from the linked payment when present, the email falling back to
the certificate's own; plan/course/date from the certificate row itself;
`time_period` keyed on `certificate.plan_type`; the displayed window is
`(created_at - 90 days, created_at)`). -/
def verify_certificate (s : Store) (raw_id : String) : VerifyResult :=
  let certificate_id := pyStrip raw_id
  if certificate_id == "" then VerifyResult.invalid "certificateId is required."
  else
    match s.certificates.find? (fun c => iexact c.certificate_id certificate_id) with
    | none => VerifyResult.notFound certificate_id false "Certificate not found."
    | some cert =>
      let payment := lookup_payment s cert.payment
      let name := payment.map fun p => p.name
      let email := match payment with | some p => p.email | none => cert.email
      let college_name := payment.map fun p => p.college_name
      let transaction_id := payment.map fun p => p.transaction_id
      let awarded_date := cert.created_at
      let time_period :=
        if cert.plan_type == "industrial" || cert.plan_type == "mastery" then
          if cert.plan_type == "industrial" then some "3 months (120 hours)"
          else if cert.plan_type == "mastery" then some "6 months (240 hours)"
          else none
        else none
      VerifyResult.found cert.certificate_id (cert.status == "issued")
        { name := name, email := email, planType := cert.plan_type, course := cert.course,
          awardedOn := awarded_date, college := college_name, transactionId := transaction_id,
          timePeriod := time_period, startDate := awarded_date - 90, endDate := awarded_date }
        cert.orientation

/-! ## Grading lemmas and claims -/

/-- The per-response success test the grading loop applies: the submitted id
matches a known question and the submitted answer equals that question's stored
answer under (case-sensitive) string equality. -/
def isCorrect (question_map : List (Int × Question)) (r : SubmittedResponse) : Bool :=
  match lookupQuestion question_map r.id with
  | none => false
  | some question => r.answer == some question.answer

theorem gradeResponses_go (question_map : List (Int × Question))
    (responses : List SubmittedResponse) (n : Nat) :
    responses.foldl
      (fun correct_count item =>
        match lookupQuestion question_map item.id with
        | none => correct_count
        | some question =>
          if item.answer == some question.answer then correct_count + 1 else correct_count)
      n = n + responses.countP (isCorrect question_map) := by
  induction responses generalizing n with
  | nil => simp
  | cons hd tl ih =>
    rw [List.foldl_cons, List.countP_cons, ih]
    have hstep :
        (match lookupQuestion question_map hd.id with
          | none => n
          | some question =>
            if hd.answer == some question.answer then n + 1 else n) =
        if isCorrect question_map hd then n + 1 else n := by
      unfold isCorrect
      cases lookupQuestion question_map hd.id <;> simp
    rw [hstep]
    by_cases hc : isCorrect question_map hd = true
    · simp only [hc, if_pos]
      omega
    · simp only [hc, if_neg, Bool.false_eq_true, reduceIte]
      omega

theorem gradeResponses_eq_countP (question_map : List (Int × Question))
    (responses : List SubmittedResponse) :
    gradeResponses question_map responses = responses.countP (isCorrect question_map) := by
  unfold gradeResponses
  simpa using gradeResponses_go question_map responses 0

/-- C3: grading counts a response as correct exactly when its id matches a known
question and its answer equals that question's stored answer (case-sensitive);
unmatched ids are silently ignored; `percentage = 100 * correct / total` where
`total` is the size of the full bank; `passed = (percentage >= threshold)`.
The bank-of-5 / threshold-40 / 2-correct scenario is the witness below. -/
theorem grade_spec (question_map : List (Int × Question)) (threshold : ℚ)
    (responses : List SubmittedResponse) (r : GradeResult)
    (h : grade question_map threshold responses = Except.ok r) :
    r.correct = responses.countP (isCorrect question_map) ∧
    r.total = question_map.length ∧
    r.percentage = 100 * (r.correct : ℚ) / (r.total : ℚ) ∧
    r.passed = decide (threshold ≤ r.percentage) := by
  unfold grade at h
  by_cases htot : question_map.length = 0
  · simp [htot] at h
  · simp only [htot, if_neg, reduceIte] at h
    cases h
    refine ⟨gradeResponses_eq_countP question_map responses, rfl, ?_, rfl⟩
    simp only
    ring

/-- Witness for C3: the spec's scenario — the 5-question fallback bank, the 40%
threshold, 5 submitted responses of which exactly 2 are correct; the result is
`correct=2, total=5, percentage=40, passed=true`. -/
def SCENARIO_RESPONSES : List SubmittedResponse :=
  [ { id := some 1, answer := some "Pandas" },
    { id := some 2, answer := some "None" },
    { id := some 3, answer := some "Accuracy" },
    { id := some 4, answer := some "Delete the first row" },
    { id := some 5, answer := some "Apriori" } ]

theorem grade_spec_witness :
    grade FALLBACK_QUESTIONS 40 SCENARIO_RESPONSES =
      Except.ok { correct := 2, total := 5, percentage := 40, passed := true } ∧
    ((2 : Nat) = SCENARIO_RESPONSES.countP (isCorrect FALLBACK_QUESTIONS) ∧
     (5 : Nat) = FALLBACK_QUESTIONS.length ∧
     (40 : ℚ) = 100 * ((2 : Nat) : ℚ) / ((5 : Nat) : ℚ) ∧
     true = decide ((40 : ℚ) ≤ (40 : ℚ))) := by
  have h : grade FALLBACK_QUESTIONS 40 SCENARIO_RESPONSES =
      Except.ok { correct := 2, total := 5, percentage := 40, passed := true } := by with_unfolding_all decide
  exact ⟨h, grade_spec FALLBACK_QUESTIONS 40 SCENARIO_RESPONSES _ h⟩

/-- C7: an empty question bank makes `grade` fail with the 503
ServiceUnavailable error before any division happens; on every non-empty bank
the division is well-defined (the denominator is non-zero and the percentage is
the exact solution of `percentage * total = 100 * correct`). -/
theorem grade_empty_bank (threshold : ℚ) (responses : List SubmittedResponse)
    (question_map : List (Int × Question)) :
    (question_map.length = 0 →
      grade question_map threshold responses =
        Except.error "Assessment is not ready. Please try later.") ∧
    (question_map.length ≠ 0 →
      ∃ r, grade question_map threshold responses = Except.ok r ∧
        r.total = question_map.length ∧ ((r.total : ℚ) ≠ 0) ∧
        r.percentage * (r.total : ℚ) = 100 * (r.correct : ℚ)) := by
  constructor
  · intro htot
    simp [grade, htot]
  · intro htot
    have hq : (question_map.length : ℚ) ≠ 0 := by exact_mod_cast htot
    refine ⟨{ correct := gradeResponses question_map responses,
              total := question_map.length,
              percentage := ((gradeResponses question_map responses : ℚ) /
                (question_map.length : ℚ)) * 100,
              passed := decide (threshold ≤ ((gradeResponses question_map responses : ℚ) /
                (question_map.length : ℚ)) * 100) },
            by simp [grade, htot], rfl, hq, ?_⟩
    simp only
    field_simp
    ring

theorem grade_empty_bank_witness :
    (grade [] 40 SCENARIO_RESPONSES =
      Except.error "Assessment is not ready. Please try later.") ∧
    ∃ r, grade FALLBACK_QUESTIONS 40 SCENARIO_RESPONSES = Except.ok r ∧
      r.total = FALLBACK_QUESTIONS.length ∧ ((r.total : ℚ) ≠ 0) ∧
      r.percentage * (r.total : ℚ) = 100 * (r.correct : ℚ) :=
  ⟨(grade_empty_bank 40 SCENARIO_RESPONSES []).1 rfl,
   (grade_empty_bank 40 SCENARIO_RESPONSES FALLBACK_QUESTIONS).2 (by decide)⟩

/-- C9: the grading loop does not deduplicate response ids — submitting the same
correct answer six times against the 5-question fallback bank yields
`correct = 6 > 5 = total` and `percentage = 120 > 100`. -/
def DUPLICATE_RESPONSES : List SubmittedResponse :=
  List.replicate 6 { id := some 1, answer := some "Pandas" }

theorem grade_counts_duplicate_ids :
    grade FALLBACK_QUESTIONS 40 DUPLICATE_RESPONSES =
      Except.ok { correct := 6, total := 5, percentage := 120, passed := true } ∧
    (5 : Nat) < 6 ∧ (100 : ℚ) < 120 :=
  ⟨by with_unfolding_all decide, by norm_num, by norm_num⟩

/-- C8 counterexample: an `Assessment` row that exists but has no questions is
graded against the fallback/demo bank (`total = 5`), yet an
`AssessmentAttempt` row IS persisted — the persistence test is `if assessment:`
(the row was found), not which bank graded the submission. -/
def EMPTY_BANK_ASSESSMENT : Assessment := { pk := 7, questions := [], pass_threshold := 40 }

theorem submit_fallback_graded_attempt_persisted :
    submit_assessment (some EMPTY_BANK_ASSESSMENT) SCENARIO_RESPONSES "student@x.y" [] =
      Except.ok ({ correct := 2, total := 5, percentage := 40, passed := true },
        [{ assessment := 7, email := "student@x.y", score_percent := 40, passed := true,
           responses := SCENARIO_RESPONSES, correct_count := 2, total_questions := 5 }]) ∧
    EMPTY_BANK_ASSESSMENT.questions.length = 0 ∧
    (5 : Nat) = FALLBACK_QUESTIONS.length := by
  exact ⟨by with_unfolding_all decide, by decide, by decide⟩

/-- C8 amended: `submit_assessment` persists exactly one immutable
`AssessmentAttempt` (appended to the store, existing rows untouched) precisely
when an `Assessment` row was found — including when that row has no questions
and grading fell back to the demo bank; when no assessment row was found
(grading against the fallback bank), the attempt store is unchanged. -/
theorem submit_assessment_persistence (assessment_found : Option Assessment)
    (responses : List SubmittedResponse) (email : String)
    (attempts : List AssessmentAttempt) (r : GradeResult)
    (attempts2 : List AssessmentAttempt)
    (h : submit_assessment assessment_found responses email attempts = Except.ok (r, attempts2)) :
    (assessment_found = none → attempts2 = attempts) ∧
    (∀ a, assessment_found = some a →
      attempts2 = attempts ++
        [{ assessment := a.pk, email := email, score_percent := r.percentage,
           passed := r.passed, responses := responses, correct_count := r.correct,
           total_questions := r.total }]) := by
  unfold submit_assessment at h
  by_cases hresp : responses.isEmpty
  · simp [hresp] at h
  · simp only [hresp, Bool.false_eq_true, if_neg, reduceIte] at h
    cases assessment_found with
    | none =>
      cases hg : grade FALLBACK_QUESTIONS (PASS_THRESHOLD * 100) responses with
      | error e => rw [hg] at h; cases h
      | ok result =>
        rw [hg] at h
        simp only [Except.ok.injEq, Prod.mk.injEq] at h
        obtain ⟨hr, ha⟩ := h
        subst hr
        exact ⟨fun _ => ha.symm, fun a ha2 => nomatch ha2⟩
    | some a =>
      cases hg : grade (if a.questions.isEmpty then FALLBACK_QUESTIONS else a.questions)
          (if a.questions.isEmpty then PASS_THRESHOLD * 100 else a.pass_threshold) responses with
      | error e => rw [hg] at h; cases h
      | ok result =>
        rw [hg] at h
        simp only [Except.ok.injEq, Prod.mk.injEq] at h
        obtain ⟨hr, ha⟩ := h
        subst hr
        exact ⟨fun habs => (nomatch habs), fun b hb => by cases hb; exact ha.symm⟩

theorem submit_assessment_persistence_witness :
    (submit_assessment none SCENARIO_RESPONSES "student@x.y" [] =
      Except.ok ({ correct := 2, total := 5, percentage := 40, passed := true }, [])) ∧
    ((none : Option Assessment) = none → ([] : List AssessmentAttempt) = []) ∧
    (∀ a, (none : Option Assessment) = some a →
      ([] : List AssessmentAttempt) = [] ++
        [{ assessment := a.pk, email := "student@x.y",
           score_percent := (40 : ℚ), passed := true, responses := SCENARIO_RESPONSES,
           correct_count := 2, total_questions := 5 }]) := by
  have h : submit_assessment none SCENARIO_RESPONSES "student@x.y" [] =
      Except.ok ({ correct := 2, total := 5, percentage := 40, passed := true }, []) := by with_unfolding_all decide
  exact ⟨h, submit_assessment_persistence none SCENARIO_RESPONSES "student@x.y" [] _ _ h⟩

/-! ## Certificate ledger lemmas and claims -/

theorem normalize_desired_none : normalize_desired none = "" := rfl

theorem empty_bne_empty : (("" : String) != "") = false := by decide

/-- C1: with no `desired_id`, `_ensure_certificate` is idempotent: whatever the
first call returned (found or freshly created), a second call — at any later
time and with any fresh randomness — returns the very same certificate and
leaves the store exactly as the first call left it. -/
theorem ensure_certificate_idempotent (gen gen2 : Nat → String) (now now2 : Int)
    (s : Store) (payment : Payment) (c1 : Certificate) (s1 : Store)
    (h : ensure_certificate gen now s payment none = (Except.ok c1, s1)) :
    ensure_certificate gen2 now2 s1 payment none = (Except.ok c1, s1) := by
  unfold ensure_certificate at h ⊢
  rw [normalize_desired_none] at h ⊢
  cases hfind : find_payment_certificate s payment with
  | some cert =>
    simp only [hfind, empty_bne_empty, Bool.false_and, Bool.false_eq_true, reduceIte,
      Prod.mk.injEq, Except.ok.injEq] at h
    obtain ⟨hc, hs⟩ := h
    subst hc
    subst hs
    simp only [hfind, empty_bne_empty, Bool.false_and, Bool.false_eq_true, reduceIte]
  | none =>
    simp only [hfind, Prod.mk.injEq, Except.ok.injEq] at h
    obtain ⟨hc, hs⟩ := h
    have hfind2 : find_payment_certificate s1 payment = some c1 := by
      subst hs
      unfold find_payment_certificate at hfind ⊢
      simp only [List.find?_append, hfind, Option.none_or]
      subst hc
      simp [create_certificate, List.find?]
    simp only [hfind2, empty_bne_empty, Bool.false_and, Bool.false_eq_true, reduceIte]

def EX_GEN : Nat → String := fun _ => "0123456789abcdef0123456789abcdef"

def EX_PAYMENT : Payment :=
  { pk := 1, transaction_id := "TXN-1", plan_type := "basic", name := "Asha",
    email := "asha@example.com", college_name := "", certificate_orientation := "horizontal",
    course := some "Data Science & AI", status := "initiated" }

def EX_STORE : Store := { certificates := [], payments := [EX_PAYMENT], next_pk := 2 }

def EX_CERT : Certificate :=
  { pk := 2, certificate_id := "CERT-0123456789", email := "asha@example.com",
    plan_type := "basic", course := some "Data Science & AI", orientation := "horizontal",
    status := "issued", payment := some 1, created_at := 0 }

def EX_STORE1 : Store := { certificates := [EX_CERT], payments := [EX_PAYMENT], next_pk := 3 }

theorem ensure_certificate_idempotent_witness :
    ensure_certificate EX_GEN 0 EX_STORE EX_PAYMENT none = (Except.ok EX_CERT, EX_STORE1) ∧
    ensure_certificate EX_GEN 7 EX_STORE1 EX_PAYMENT none = (Except.ok EX_CERT, EX_STORE1) :=
  ⟨by decide,
   ensure_certificate_idempotent EX_GEN EX_GEN 0 7 EX_STORE EX_PAYMENT EX_CERT EX_STORE1
     (by decide)⟩

/-- C2 counterexample: when NO certificate exists yet for the payment, a
`desired_id` that collides case-insensitively with an existing certificate of
another record does NOT fail with ConflictError: `_ensure_certificate` silently
falls back to a generated id and creates a new certificate (views.py lines
411-413), so the call succeeds and the store grows by one row. -/
def C2_TAKEN_CERT : Certificate :=
  { pk := 1, certificate_id := "TAKEN-ID", email := "other@example.com",
    plan_type := "basic", course := none, orientation := "horizontal",
    status := "issued", payment := none, created_at := 0 }

def C2_PAYMENT : Payment :=
  { pk := 2, transaction_id := "TXN-2", plan_type := "basic", name := "Ben",
    email := "ben@example.com", college_name := "", certificate_orientation := "horizontal",
    course := none, status := "paid" }

def C2_STORE : Store := { certificates := [C2_TAKEN_CERT], payments := [C2_PAYMENT], next_pk := 3 }

def C2_CREATED : Certificate :=
  { pk := 3, certificate_id := "CERT-0123456789", email := "ben@example.com",
    plan_type := "basic", course := none, orientation := "horizontal",
    status := "issued", payment := some 2, created_at := 0 }

theorem ensure_certificate_collision_no_conflict :
    certificate_id_in_use C2_STORE (normalize_desired (some "taken-id")) = true ∧
    ensure_certificate EX_GEN 0 C2_STORE C2_PAYMENT (some "taken-id") =
      (Except.ok C2_CREATED,
        { certificates := [C2_TAKEN_CERT, C2_CREATED], payments := [C2_PAYMENT], next_pk := 4 }) ∧
    C2_CREATED.certificate_id ≠ normalize_desired (some "taken-id") :=
  ⟨by decide, by decide, by decide⟩

/-- C2 amended: when a certificate already exists for `(payment, payment.plan_type)`
and the normalized `desired_id` is non-empty, differs from that certificate's
current id, and collides case-insensitively with a *different* certificate,
`_ensure_certificate` raises `ValueError("Certificate ID already in use.")`
(the ConflictError) and the store is unchanged — the original certificate keeps
its id and nothing is created or renamed. (When no certificate exists for the
payment, a colliding desired id does not raise; a generated id is used instead —
see the counterexample.) -/
theorem ensure_certificate_conflict (gen : Nat → String) (now : Int) (s : Store)
    (payment : Payment) (cert : Certificate) (desired : String)
    (hfound : find_payment_certificate s payment = some cert)
    (hne : normalize_desired (some desired) ≠ "")
    (hdiff : cert.certificate_id ≠ normalize_desired (some desired))
    (hcoll : certificate_id_in_use_by_other s cert.pk (normalize_desired (some desired)) = true) :
    ensure_certificate gen now s payment (some desired) =
      (Except.error "Certificate ID already in use.", s) := by
  unfold ensure_certificate
  rw [hfound]
  have h1 : (normalize_desired (some desired) != "") = true := by
    simpa [bne_iff_ne] using hne
  have h2 : (cert.certificate_id != normalize_desired (some desired)) = true := by
    simpa [bne_iff_ne] using hdiff
  simp [h1, h2, hcoll]

def C2B_OWNED_CERT : Certificate :=
  { pk := 1, certificate_id := "CERT-AAA", email := "asha@example.com",
    plan_type := "basic", course := none, orientation := "horizontal",
    status := "issued", payment := some 3, created_at := 0 }

def C2B_OTHER_CERT : Certificate :=
  { pk := 2, certificate_id := "CERT-BBB", email := "other@example.com",
    plan_type := "basic", course := none, orientation := "horizontal",
    status := "issued", payment := none, created_at := 0 }

def C2B_PAYMENT : Payment :=
  { pk := 3, transaction_id := "TXN-3", plan_type := "basic", name := "Asha",
    email := "asha@example.com", college_name := "", certificate_orientation := "horizontal",
    course := none, status := "paid" }

def C2B_STORE : Store :=
  { certificates := [C2B_OWNED_CERT, C2B_OTHER_CERT], payments := [C2B_PAYMENT], next_pk := 4 }

theorem ensure_certificate_conflict_witness :
    (find_payment_certificate C2B_STORE C2B_PAYMENT = some C2B_OWNED_CERT ∧
     normalize_desired (some "cert-bbb") ≠ "" ∧
     C2B_OWNED_CERT.certificate_id ≠ normalize_desired (some "cert-bbb") ∧
     certificate_id_in_use_by_other C2B_STORE C2B_OWNED_CERT.pk
       (normalize_desired (some "cert-bbb")) = true) ∧
    ensure_certificate EX_GEN 0 C2B_STORE C2B_PAYMENT (some "cert-bbb") =
      (Except.error "Certificate ID already in use.", C2B_STORE) :=
  ⟨⟨by decide, by decide, by decide, by decide⟩,
   ensure_certificate_conflict EX_GEN 0 C2B_STORE C2B_PAYMENT C2B_OWNED_CERT "cert-bbb"
     (by decide) (by decide) (by decide) (by decide)⟩

/-! ## Generated id form (claim C4) -/

/-- The sixteen characters `uuid.uuid4().hex` draws from. -/
def LOWER_HEX_CHARS : List Char := "0123456789abcdef".data

def UPPER_HEX_CHARS : List Char := "0123456789ABCDEF".data

/-- What `uuid.uuid4().hex` produces: a 32-character lowercase hex string. -/
def is_uuid_hex (s : String) : Prop :=
  s.data.length = 32 ∧ ∀ c ∈ s.data, c ∈ LOWER_HEX_CHARS

/-- The spec's shape for generated ids: `CERT-` followed by exactly 10
uppercase hex characters. -/
def cert_id_form (s : String) : Prop :=
  ∃ t : String, s = "CERT-" ++ t ∧ t.data.length = 10 ∧ ∀ c ∈ t.data, c ∈ UPPER_HEX_CHARS

theorem toUpper_mem_upper_hex (c : Char) (hc : c ∈ LOWER_HEX_CHARS) :
    c.toUpper ∈ UPPER_HEX_CHARS := by
  fin_cases hc <;> decide

theorem make_certificate_id_form (raw : String) (h : is_uuid_hex raw) :
    cert_id_form (make_certificate_id raw) := by
  obtain ⟨hlen, hmem⟩ := h
  refine ⟨pyUpper ⟨raw.data.take 10⟩, rfl, ?_, ?_⟩
  · show ((raw.data.take 10).map Char.toUpper).length = 10
    rw [List.length_map, List.length_take, hlen]
    decide
  · intro c hc
    have hc2 : c ∈ (raw.data.take 10).map Char.toUpper := hc
    rw [List.mem_map] at hc2
    obtain ⟨c0, hc0, rfl⟩ := hc2
    exact toUpper_mem_upper_hex c0 (hmem c0 (List.take_subset 10 raw.data hc0))

/-- C4: when no certificate exists for `(payment, payment.plan_type)`,
`_ensure_certificate` creates one (appended to the store) with status `issued`,
owned by the payment; its id is the normalized (trimmed, uppercased)
`desired_id` when that is supplied and not already in use; otherwise a freshly
generated id of the form `CERT-` + 10 uppercase hex characters — the generated
candidate being regenerated once when the first candidate (desired or
generated) already exists in the store. -/
theorem ensure_certificate_creates (gen : Nat → String) (now : Int) (s : Store)
    (payment : Payment) (desired : Option String)
    (hnone : find_payment_certificate s payment = none)
    (hgen : ∀ k, is_uuid_hex (gen k)) :
    ∃ created : Certificate,
      ensure_certificate gen now s payment desired =
        (Except.ok created,
          { certificates := s.certificates ++ [created], payments := s.payments,
            next_pk := s.next_pk + 1 }) ∧
      created.status = "issued" ∧
      created.payment = some payment.pk ∧
      created.plan_type = payment.plan_type ∧
      created.email = payment.email ∧
      (normalize_desired desired ≠ "" →
        certificate_id_in_use s (normalize_desired desired) = false →
        created.certificate_id = normalize_desired desired) ∧
      (normalize_desired desired ≠ "" →
        certificate_id_in_use s (normalize_desired desired) = true →
        created.certificate_id = make_certificate_id (gen 0) ∧
        cert_id_form created.certificate_id) ∧
      (normalize_desired desired = "" →
        certificate_id_in_use s (make_certificate_id (gen 0)) = false →
        created.certificate_id = make_certificate_id (gen 0) ∧
        cert_id_form created.certificate_id) ∧
      (normalize_desired desired = "" →
        certificate_id_in_use s (make_certificate_id (gen 0)) = true →
        created.certificate_id = make_certificate_id (gen 1) ∧
        cert_id_form created.certificate_id) := by
  refine ⟨create_certificate gen now s payment (normalize_desired desired),
    ?_, rfl, rfl, rfl, rfl, ?_, ?_, ?_, ?_⟩
  · unfold ensure_certificate
    simp only [hnone]
  · intro hne huse
    have hb : (normalize_desired desired != "") = true := by simpa [bne_iff_ne] using hne
    show new_certificate_id gen s (normalize_desired desired) = normalize_desired desired
    unfold new_certificate_id
    simp only [hb, if_pos, reduceIte, huse, Bool.false_eq_true]
  · intro hne huse
    have hb : (normalize_desired desired != "") = true := by simpa [bne_iff_ne] using hne
    have hid : new_certificate_id gen s (normalize_desired desired) =
        make_certificate_id (gen 0) := by
      unfold new_certificate_id
      simp only [hb, if_pos, reduceIte, huse]
    refine ⟨hid, ?_⟩
    show cert_id_form (new_certificate_id gen s (normalize_desired desired))
    rw [hid]
    exact make_certificate_id_form (gen 0) (hgen 0)
  · intro hne huse
    have hb : (normalize_desired desired != "") = false := by simpa [bne_iff_ne] using hne
    have hid : new_certificate_id gen s (normalize_desired desired) =
        make_certificate_id (gen 0) := by
      unfold new_certificate_id
      simp only [hb, Bool.false_eq_true, reduceIte, huse]
    refine ⟨hid, ?_⟩
    show cert_id_form (new_certificate_id gen s (normalize_desired desired))
    rw [hid]
    exact make_certificate_id_form (gen 0) (hgen 0)
  · intro hne huse
    have hb : (normalize_desired desired != "") = false := by simpa [bne_iff_ne] using hne
    have hid : new_certificate_id gen s (normalize_desired desired) =
        make_certificate_id (gen 1) := by
      unfold new_certificate_id
      simp only [hb, Bool.false_eq_true, reduceIte, huse]
    refine ⟨hid, ?_⟩
    show cert_id_form (new_certificate_id gen s (normalize_desired desired))
    rw [hid]
    exact make_certificate_id_form (gen 1) (hgen 1)

/-- Witness for C4: the spec's scenario — `desired_id="cert-abc123"` with no
existing certificate yields certificate_id exactly `"CERT-ABC123"`. -/
def C4_PAYMENT : Payment :=
  { pk := 1, transaction_id := "TXN-4", plan_type := "basic", name := "Asha",
    email := "asha@example.com", college_name := "", certificate_orientation := "horizontal",
    course := none, status := "paid" }

def C4_STORE : Store := { certificates := [], payments := [C4_PAYMENT], next_pk := 2 }

theorem ensure_certificate_creates_witness :
    (∃ created : Certificate,
      ensure_certificate EX_GEN 0 C4_STORE C4_PAYMENT (some "cert-abc123") =
        (Except.ok created,
          { certificates := C4_STORE.certificates ++ [created], payments := C4_STORE.payments,
            next_pk := C4_STORE.next_pk + 1 }) ∧
      created.status = "issued" ∧
      created.payment = some C4_PAYMENT.pk ∧
      created.plan_type = C4_PAYMENT.plan_type ∧
      created.email = C4_PAYMENT.email ∧
      (normalize_desired (some "cert-abc123") ≠ "" →
        certificate_id_in_use C4_STORE (normalize_desired (some "cert-abc123")) = false →
        created.certificate_id = normalize_desired (some "cert-abc123")) ∧
      (normalize_desired (some "cert-abc123") ≠ "" →
        certificate_id_in_use C4_STORE (normalize_desired (some "cert-abc123")) = true →
        created.certificate_id = make_certificate_id (EX_GEN 0) ∧
        cert_id_form created.certificate_id) ∧
      (normalize_desired (some "cert-abc123") = "" →
        certificate_id_in_use C4_STORE (make_certificate_id (EX_GEN 0)) = false →
        created.certificate_id = make_certificate_id (EX_GEN 0) ∧
        cert_id_form created.certificate_id) ∧
      (normalize_desired (some "cert-abc123") = "" →
        certificate_id_in_use C4_STORE (make_certificate_id (EX_GEN 0)) = true →
        created.certificate_id = make_certificate_id (EX_GEN 1) ∧
        cert_id_form created.certificate_id)) ∧
    normalize_desired (some "cert-abc123") = "CERT-ABC123" :=
  ⟨ensure_certificate_creates EX_GEN 0 C4_STORE C4_PAYMENT (some "cert-abc123")
      (by decide)
      (fun _ => (⟨by decide, by decide⟩ : is_uuid_hex "0123456789abcdef0123456789abcdef")),
   by decide⟩

/-! ## Verification claims -/

/-- C5: a verification lookup whose (stripped, non-empty) certificate id matches
no stored certificate under the case-insensitive lookup answers
`verified=false` with message `"Certificate not found."` and carries no holder
data (the `notFound` result has no holder block at all). -/
theorem verify_certificate_not_found (s : Store) (raw_id : String)
    (hne : pyStrip raw_id ≠ "")
    (hnomatch : ∀ c ∈ s.certificates, iexact c.certificate_id (pyStrip raw_id) = false) :
    verify_certificate s raw_id =
      VerifyResult.notFound (pyStrip raw_id) false "Certificate not found." := by
  have hfind : s.certificates.find? (fun c => iexact c.certificate_id (pyStrip raw_id)) = none :=
    List.find?_eq_none.mpr fun x hx => by simp [hnomatch x hx]
  have hbe : (pyStrip raw_id == "") = false := beq_eq_false_iff_ne.mpr hne
  unfold verify_certificate
  simp only [hbe, Bool.false_eq_true, reduceIte, hfind]

theorem verify_certificate_not_found_witness :
    (pyStrip "CERT-ZZZ" ≠ "" ∧
     ∀ c ∈ EX_STORE1.certificates, iexact c.certificate_id (pyStrip "CERT-ZZZ") = false) ∧
    verify_certificate EX_STORE1 "CERT-ZZZ" =
      VerifyResult.notFound (pyStrip "CERT-ZZZ") false "Certificate not found." :=
  ⟨⟨by decide, by decide⟩,
   verify_certificate_not_found EX_STORE1 "CERT-ZZZ" (by decide) (by decide)⟩

/-- C6 counterexample: a certificate linked to a payment whose `plan_type` is
`"mastery"` while the certificate row itself says `"basic"`: the holder block
reports the certificate's own plan (`"basic"`, hence also no `timePeriod`), not
the linked payment's — plan, course and award date are never sourced from the
payment, contrary to the claim. -/
def C6_PAYMENT : Payment :=
  { pk := 1, transaction_id := "TXN-6", plan_type := "mastery", name := "Holder",
    email := "pay@example.com", college_name := "College", certificate_orientation := "horizontal",
    course := some "Payment Course", status := "paid" }

def C6_CERT : Certificate :=
  { pk := 2, certificate_id := "CERT-C6", email := "cert@example.com",
    plan_type := "basic", course := none, orientation := "horizontal",
    status := "issued", payment := some 1, created_at := 1000 }

def C6_STORE : Store := { certificates := [C6_CERT], payments := [C6_PAYMENT], next_pk := 3 }

theorem verify_certificate_plan_not_from_payment :
    verify_certificate C6_STORE "CERT-C6" =
      VerifyResult.found "CERT-C6" true
        { name := some "Holder", email := "pay@example.com", planType := "basic",
          course := none, awardedOn := 1000, college := some "College",
          transactionId := some "TXN-6", timePeriod := none,
          startDate := 910, endDate := 1000 } "horizontal" ∧
    C6_PAYMENT.plan_type = "mastery" ∧
    C6_PAYMENT.plan_type ≠ "basic" :=
  ⟨by decide, by decide, by decide⟩

/-- C6 amended: when the lookup finds a certificate, `verified` is true exactly
when the certificate's status is `issued`; the holder block takes name, email,
college and transaction id from the linked payment when present (email falling
back to the certificate's own `email`, the rest to null), while plan, course
and award date always come from the certificate row itself (`plan_type`,
`course`, `created_at`); `timePeriod` is keyed on the certificate's plan_type
(`industrial` → "3 months (120 hours)", `mastery` → "6 months (240 hours)",
otherwise absent) and the displayed window is
`(awarded_date - 90 days, awarded_date)`. -/
theorem verify_certificate_found (s : Store) (raw_id : String) (cert : Certificate)
    (hne : pyStrip raw_id ≠ "")
    (hfind : s.certificates.find? (fun c => iexact c.certificate_id (pyStrip raw_id)) = some cert) :
    ∃ verified holder orient,
      verify_certificate s raw_id = VerifyResult.found cert.certificate_id verified holder orient ∧
      (verified = true ↔ cert.status = "issued") ∧
      orient = cert.orientation ∧
      holder.planType = cert.plan_type ∧
      holder.course = cert.course ∧
      holder.awardedOn = cert.created_at ∧
      holder.startDate = cert.created_at - 90 ∧
      holder.endDate = cert.created_at ∧
      (∀ p, lookup_payment s cert.payment = some p →
        holder.name = some p.name ∧ holder.email = p.email ∧
        holder.college = some p.college_name ∧ holder.transactionId = some p.transaction_id) ∧
      (lookup_payment s cert.payment = none →
        holder.name = none ∧ holder.email = cert.email ∧
        holder.college = none ∧ holder.transactionId = none) ∧
      holder.timePeriod =
        (if cert.plan_type = "industrial" then some "3 months (120 hours)"
         else if cert.plan_type = "mastery" then some "6 months (240 hours)"
         else none) := by
  have hbe : (pyStrip raw_id == "") = false := beq_eq_false_iff_ne.mpr hne
  unfold verify_certificate
  simp only [hbe, Bool.false_eq_true, reduceIte, hfind]
  refine ⟨_, _, _, rfl, beq_iff_eq, rfl, rfl, rfl, rfl, rfl, rfl, ?_, ?_, ?_⟩
  · intro p hp
    simp [hp]
  · intro hp
    simp [hp]
  · show (if (cert.plan_type == "industrial" || cert.plan_type == "mastery") = true then
        if (cert.plan_type == "industrial") = true then some "3 months (120 hours)"
        else if (cert.plan_type == "mastery") = true then some "6 months (240 hours)"
        else none
      else none) =
      (if cert.plan_type = "industrial" then some "3 months (120 hours)"
       else if cert.plan_type = "mastery" then some "6 months (240 hours)"
       else none)
    by_cases h1 : cert.plan_type = "industrial"
    · simp [h1]
    · by_cases h2 : cert.plan_type = "mastery"
      · simp [h1, h2]
      · simp [h1, h2]

theorem verify_certificate_found_witness :
    (pyStrip "cert-0123456789" ≠ "" ∧
     EX_STORE1.certificates.find?
       (fun c => iexact c.certificate_id (pyStrip "cert-0123456789")) = some EX_CERT) ∧
    ∃ verified holder orient,
      verify_certificate EX_STORE1 "cert-0123456789" =
        VerifyResult.found EX_CERT.certificate_id verified holder orient ∧
      (verified = true ↔ EX_CERT.status = "issued") ∧
      orient = EX_CERT.orientation ∧
      holder.planType = EX_CERT.plan_type ∧
      holder.course = EX_CERT.course ∧
      holder.awardedOn = EX_CERT.created_at ∧
      holder.startDate = EX_CERT.created_at - 90 ∧
      holder.endDate = EX_CERT.created_at ∧
      (∀ p, lookup_payment EX_STORE1 EX_CERT.payment = some p →
        holder.name = some p.name ∧ holder.email = p.email ∧
        holder.college = some p.college_name ∧ holder.transactionId = some p.transaction_id) ∧
      (lookup_payment EX_STORE1 EX_CERT.payment = none →
        holder.name = none ∧ holder.email = EX_CERT.email ∧
        holder.college = none ∧ holder.transactionId = none) ∧
      holder.timePeriod =
        (if EX_CERT.plan_type = "industrial" then some "3 months (120 hours)"
         else if EX_CERT.plan_type = "mastery" then some "6 months (240 hours)"
         else none) :=
  ⟨⟨by decide, by decide⟩,
   verify_certificate_found EX_STORE1 "cert-0123456789" EX_CERT (by decide) (by decide)⟩

/-! ## Issuance claims (C10) -/

/-- C10 counterexample: a payment with a pre-existing REVOKED certificate for
its plan type. `issue_certificate` succeeds, forces the payment to `paid`, and
returns the existing certificate unchanged — so after the call no ISSUED
certificate exists for the payment, contrary to the claim. -/
def C10_PAYMENT : Payment :=
  { pk := 1, transaction_id := "TXN-10", plan_type := "basic", name := "Asha",
    email := "asha@example.com", college_name := "", certificate_orientation := "horizontal",
    course := none, status := "initiated" }

def C10_CERT : Certificate :=
  { pk := 2, certificate_id := "CERT-REV", email := "asha@example.com",
    plan_type := "basic", course := none, orientation := "horizontal",
    status := "revoked", payment := some 1, created_at := 0 }

def C10_STORE : Store := { certificates := [C10_CERT], payments := [C10_PAYMENT], next_pk := 3 }

def C10_PAYMENT_PAID : Payment := { C10_PAYMENT with status := "paid" }

theorem issue_certificate_keeps_revoked :
    issue_certificate EX_GEN 0 C10_STORE "TXN-10" =
      (Except.ok (C10_CERT, C10_PAYMENT_PAID),
        { certificates := [C10_CERT], payments := [C10_PAYMENT_PAID], next_pk := 3 }) ∧
    C10_CERT.status = "revoked" ∧
    (∀ c ∈ [C10_CERT], c.payment = some C10_PAYMENT.pk → c.status ≠ "issued") :=
  ⟨by decide, by decide, by decide⟩

/-- C10 amended: for every payment found by `transactionId`,
`issue_certificate` unconditionally forces the payment's status to `"paid"` —
whatever its prior status was (initiated, failed or refunded; the prior status
is never checked as a precondition) — and ensures a certificate exists for
`(payment, payment.plan_type)`: a newly created certificate has status
`issued`, but a pre-existing certificate is returned with its stored status
unchanged (which may be `pending` or `revoked`). -/
theorem issue_certificate_forces_paid (gen : Nat → String) (now : Int) (s : Store)
    (transaction_id : String) (payment : Payment)
    (htid : transaction_id ≠ "")
    (hfind : s.payments.find? (fun p => p.transaction_id == transaction_id) = some payment) :
    ∃ cert : Certificate, ∃ s2 : Store,
      issue_certificate gen now s transaction_id =
        (Except.ok (cert, { payment with status := "paid" }), s2) ∧
      cert.payment = some payment.pk ∧
      cert.plan_type = payment.plan_type ∧
      cert ∈ s2.certificates ∧
      (∀ q ∈ s2.payments, q.pk = payment.pk → q.status = "paid") ∧
      (find_payment_certificate s payment = none → cert.status = "issued") ∧
      (∀ c0, find_payment_certificate s payment = some c0 → cert = c0) := by
  have hbe : (transaction_id == "") = false := beq_eq_false_iff_ne.mpr htid
  have hupd : (if (payment.status != "paid") = true
      then { payment with status := "paid" } else payment) = { payment with status := "paid" } := by
    by_cases hp : payment.status = "paid"
    · cases payment
      simp_all
    · simp [bne_iff_ne, hp]
  unfold issue_certificate
  simp only [hbe, Bool.false_eq_true, reduceIte, hfind, hupd]
  have hfp : find_payment_certificate
      { s with payments := s.payments.map fun q =>
          if q.pk = payment.pk then { payment with status := "paid" } else q }
      { payment with status := "paid" } = find_payment_certificate s payment := rfl
  have hpay : ∀ q ∈ s.payments.map fun q =>
      if q.pk = payment.pk then { payment with status := "paid" } else q,
      q.pk = payment.pk → q.status = "paid" := by
    intro q hq hqpk
    rw [List.mem_map] at hq
    obtain ⟨q0, hq0, rfl⟩ := hq
    by_cases h0 : q0.pk = payment.pk
    · simp [h0]
    · rw [if_neg h0] at hqpk ⊢
      exact absurd hqpk h0
  cases hens : find_payment_certificate s payment with
  | none =>
    unfold ensure_certificate
    rw [normalize_desired_none]
    simp only [hfp, hens]
    refine ⟨create_certificate gen now
        { s with payments := s.payments.map fun q =>
            if q.pk = payment.pk then { payment with status := "paid" } else q }
        { payment with status := "paid" } "", _, rfl, rfl, rfl, ?_, hpay, fun _ => rfl,
      fun c0 hc0 => (nomatch hc0)⟩
    exact List.mem_append_right _ (List.mem_singleton.mpr rfl)
  | some c0 =>
    unfold ensure_certificate
    rw [normalize_desired_none]
    simp only [hfp, hens, empty_bne_empty, Bool.false_and, Bool.false_eq_true, reduceIte]
    have hens2 : s.certificates.find?
        (fun c => c.payment == some payment.pk && c.plan_type == payment.plan_type) = some c0 :=
      hens
    have hpred := List.find?_some hens2
    simp only [Bool.and_eq_true, beq_iff_eq] at hpred
    refine ⟨c0, _, rfl, hpred.1, hpred.2, ?_, hpay, fun habs => (nomatch habs),
      fun c1 hc1 => by cases hc1; rfl⟩
    exact List.mem_of_find?_eq_some hens2

def C10B_PAYMENT : Payment :=
  { pk := 1, transaction_id := "TXN-11", plan_type := "basic", name := "Ben",
    email := "ben@example.com", college_name := "", certificate_orientation := "horizontal",
    course := none, status := "refunded" }

def C10B_STORE : Store := { certificates := [], payments := [C10B_PAYMENT], next_pk := 2 }

theorem issue_certificate_forces_paid_witness :
    ("TXN-11" ≠ "" ∧
     C10B_STORE.payments.find? (fun p => p.transaction_id == "TXN-11") = some C10B_PAYMENT) ∧
    ∃ cert : Certificate, ∃ s2 : Store,
      issue_certificate EX_GEN 0 C10B_STORE "TXN-11" =
        (Except.ok (cert, { C10B_PAYMENT with status := "paid" }), s2) ∧
      cert.payment = some C10B_PAYMENT.pk ∧
      cert.plan_type = C10B_PAYMENT.plan_type ∧
      cert ∈ s2.certificates ∧
      (∀ q ∈ s2.payments, q.pk = C10B_PAYMENT.pk → q.status = "paid") ∧
      (find_payment_certificate C10B_STORE C10B_PAYMENT = none → cert.status = "issued") ∧
      (∀ c0, find_payment_certificate C10B_STORE C10B_PAYMENT = some c0 → cert = c0) :=
  ⟨⟨by decide, by decide⟩,
   issue_certificate_forces_paid EX_GEN 0 C10B_STORE "TXN-11" C10B_PAYMENT
     (by decide) (by decide)⟩

end CertPlatform
